import Mathlib

set_option maxRecDepth 8000

/-!
# Verification of the Garmin Connect MCP tool gateway (`src/index.js`)

A shallow embedding of the single-file Node.js MCP server. The program is a
tool gateway: it advertises a static catalog of 25 tool definitions, and on a
call-tool request maps the tool name to a fixed endpoint path, forwards the
arguments as a JSON body over HTTPS with credential headers, and relays the
JSON response (or a structured error) back to the caller.

Modelling conventions:

* JavaScript values that flow through `JSON.parse` / `JSON.stringify` are
  modelled by the inductive `Json` below.  JSON numbers are modelled as
  integers (`Int`); fractional/exponent number literals, surrogate-pair
  recombination in `\uXXXX` escapes and duplicate-key collapsing of
  `JSON.parse` are outside the model (none of the verified properties
  depends on them, and floating point is out of scope).
* `process.env` is modelled by the `Env` structure, with `Option String`
  fields (`none` = variable unset).  JavaScript truthiness on environment
  strings (`!email`, `API_KEY ||`, …) is `jsEnvFalsy`.
* The asynchronous control flow collapses to explicit values: a promise
  rejection / synchronous throw inside `apiRequest` is `Except.error`, the
  network is an oracle argument `NetReply` (the response, or the `error`
  event of the request object), and the outbound HTTPS request actually
  issued is returned alongside the result (`none` when the code fails before
  `https.request` is reached).
* The JS object lookup `toolEndpointMap[name]` is modelled with its
  prototype chain (`jsObjectGet`): an own key yields its path string, a name
  inherited from `Object.prototype` (`toString`, `constructor`, …) yields a
  truthy non-string value that passes the `!toolEndpointMap[name]` check,
  and only a truly absent name is `undefined`.
-/

/-- A JSON / JavaScript data value (numbers restricted to integers). -/
inductive Json where
  | null
  | bool (b : Bool)
  | num (n : Int)
  | str (s : String)
  | arr (elems : List Json)
  | obj (members : List (String × Json))
deriving Repr, Inhabited

mutual

/-- Structural equality on `Json` values (needed because automatic deriving
does not handle the nested occurrence of `Json` under `List`). -/
def jsonBeq : Json → Json → Bool
  | Json.null, Json.null => true
  | Json.bool a, Json.bool b => a == b
  | Json.num a, Json.num b => a == b
  | Json.str a, Json.str b => a == b
  | Json.arr xs, Json.arr ys => jsonBeqList xs ys
  | Json.obj xs, Json.obj ys => jsonBeqMembers xs ys
  | _, _ => false

/-- Pointwise equality of JSON arrays. -/
def jsonBeqList : List Json → List Json → Bool
  | [], [] => true
  | x :: xs, y :: ys => jsonBeq x y && jsonBeqList xs ys
  | _, _ => false

/-- Pointwise equality of JSON object member lists. -/
def jsonBeqMembers : List (String × Json) → List (String × Json) → Bool
  | [], [] => true
  | (k, v) :: xs, (l, w) :: ys => k == l && jsonBeq v w && jsonBeqMembers xs ys
  | _, _ => false

end

mutual

theorem jsonBeq_iff : ∀ a b : Json, jsonBeq a b = true ↔ a = b
  | Json.null, b => by cases b <;> simp [jsonBeq]
  | Json.bool a, b => by cases b <;> simp [jsonBeq]
  | Json.num a, b => by cases b <;> simp [jsonBeq]
  | Json.str a, b => by cases b <;> simp [jsonBeq]
  | Json.arr xs, b => by
      cases b <;> simp [jsonBeq]
      exact jsonBeqList_iff xs _
  | Json.obj xs, b => by
      cases b <;> simp [jsonBeq]
      exact jsonBeqMembers_iff xs _

theorem jsonBeqList_iff : ∀ xs ys : List Json, jsonBeqList xs ys = true ↔ xs = ys
  | [], ys => by cases ys <;> simp [jsonBeqList]
  | x :: xs, ys => by
      cases ys with
      | nil => simp [jsonBeqList]
      | cons y ys =>
          simp [jsonBeqList, Bool.and_eq_true, jsonBeq_iff x y, jsonBeqList_iff xs ys]

theorem jsonBeqMembers_iff :
    ∀ xs ys : List (String × Json), jsonBeqMembers xs ys = true ↔ xs = ys
  | [], ys => by cases ys <;> simp [jsonBeqMembers]
  | (k, v) :: xs, ys => by
      cases ys with
      | nil => simp [jsonBeqMembers]
      | cons y ys =>
          obtain ⟨l, w⟩ := y
          simp [jsonBeqMembers, Bool.and_eq_true, jsonBeq_iff v w,
                jsonBeqMembers_iff xs ys, and_assoc]

end

instance : DecidableEq Json := fun a b => decidable_of_iff _ (jsonBeq_iff a b)

/-- JavaScript truthiness of a `Json` value (`if (body)` in `apiRequest`):
`null`, `false`, `0` and `""` are falsy; every object or array is truthy. -/
def jsTruthy : Json → Bool
  | Json.null => false
  | Json.bool b => b
  | Json.num n => n != 0
  | Json.str s => s != ""
  | Json.arr _ => true
  | Json.obj _ => true

/-- One hexadecimal digit (lower case, as produced by JS `\u00xx` escapes). -/
def hexDigit (n : Nat) : Char :=
  if n < 10 then Char.ofNat ('0'.toNat + n)
  else Char.ofNat ('a'.toNat + (n - 10))

/-- Four-digit hexadecimal rendering used in `\uXXXX` escapes. -/
def hex4 (n : Nat) : String :=
  String.mk [hexDigit (n / 4096 % 16), hexDigit (n / 256 % 16),
             hexDigit (n / 16 % 16), hexDigit (n % 16)]

/-- Escaping of one character inside a JSON string literal, as performed by
`JSON.stringify` (ECMA-262 QuoteJSONString). -/
def quoteJsonChar (c : Char) : String :=
  if c = '"' then "\\\""
  else if c = '\\' then "\\\\"
  else if c = Char.ofNat 8 then "\\b"
  else if c = Char.ofNat 9 then "\\t"
  else if c = Char.ofNat 10 then "\\n"
  else if c = Char.ofNat 12 then "\\f"
  else if c = Char.ofNat 13 then "\\r"
  else if c.toNat < 32 then "\\u" ++ hex4 c.toNat
  else String.singleton c

/-- `JSON.stringify` rendering of a string value, quotes included. -/
def quoteJson (s : String) : String :=
  "\"" ++ String.join (s.data.map quoteJsonChar) ++ "\""

mutual

/-- `JSON.stringify(v, null, gap)` with accumulated indentation `indent`
(ECMA-262 SerializeJSONProperty).  `gap = ""` is the compact form
`JSON.stringify(v)`; `gap = "  "` is the 2-space pretty form used by the
call-tool handler. -/
def serJson (gap indent : String) : Json → String
  | Json.null => "null"
  | Json.bool b => cond b "true" "false"
  | Json.num n => toString n
  | Json.str s => quoteJson s
  | Json.arr elems =>
      match serArr gap (indent ++ gap) elems with
      | [] => "[]"
      | parts =>
          if gap = "" then "[" ++ String.intercalate "," parts ++ "]"
          else "[\n" ++
            String.intercalate ",\n" (parts.map (fun p => indent ++ gap ++ p)) ++
            "\n" ++ indent ++ "]"
  | Json.obj members =>
      match serObj gap (indent ++ gap) members with
      | [] => "\x7b\x7d"
      | parts =>
          if gap = "" then "\x7b" ++ String.intercalate "," parts ++ "\x7d"
          else "\x7b\n" ++
            String.intercalate ",\n" (parts.map (fun p => indent ++ gap ++ p)) ++
            "\n" ++ indent ++ "\x7d"

/-- Serialized array elements, in order. -/
def serArr (gap indent : String) : List Json → List String
  | [] => []
  | v :: vs => serJson gap indent v :: serArr gap indent vs

/-- Serialized object members, in insertion order; the key/value separator is
`": "` in pretty mode and `":"` in compact mode, as in ECMA-262. -/
def serObj (gap indent : String) : List (String × Json) → List String
  | [] => []
  | (k, v) :: ms =>
      (quoteJson k ++ (if gap = "" then ":" else ": ") ++ serJson gap indent v)
        :: serObj gap indent ms

end

/-- `JSON.stringify(v)` — the compact serialization used for request bodies
and for the `API Error` message. -/
def stringifyCompact (v : Json) : String := serJson "" "" v

/-- `JSON.stringify(v, null, 2)` — the 2-space-indented serialization used
for every text block the call-tool handler returns. -/
def stringifyIndent2 (v : Json) : String := serJson "  " "" v

example : stringifyIndent2 (Json.obj [("ok", Json.bool true)]) =
    "\x7b\n  \"ok\": true\n\x7d" := by decide

example : stringifyCompact (Json.obj [("ok", Json.bool true)]) =
    "\x7b\"ok\":true\x7d" := by decide

example : stringifyIndent2 (Json.obj []) = "\x7b\x7d" := by decide

example : stringifyIndent2
      (Json.obj [("success", Json.bool false), ("error", Json.str "boom")]) =
    "\x7b\n  \"success\": false,\n  \"error\": \"boom\"\n\x7d" := by decide

/-- JSON insignificant whitespace (RFC 8259 / `JSON.parse`). -/
def isJsonWs : Char → Bool
  | ' ' | '\t' | '\n' | '\r' => true
  | _ => false

/-- Drop leading JSON whitespace. -/
def skipWs : List Char → List Char
  | [] => []
  | c :: cs => if isJsonWs c then skipWs cs else c :: cs

/-- Numeric value of one hexadecimal digit, if any. -/
def hexVal (c : Char) : Option Nat :=
  let n := c.toNat
  if 48 ≤ n ∧ n ≤ 57 then some (n - 48)
  else if 97 ≤ n ∧ n ≤ 102 then some (n - 87)
  else if 65 ≤ n ∧ n ≤ 70 then some (n - 55)
  else none

/-- The character denoted by a single-character JSON escape (`\"`, `\\`, `\/`,
`\b`, `\f`, `\n`, `\r`, `\t`). -/
def escChar (c : Char) : Option Char :=
  if c = '"' then some '"'
  else if c = '\\' then some '\\'
  else if c = '/' then some '/'
  else if c = 'b' then some (Char.ofNat 8)
  else if c = 'f' then some (Char.ofNat 12)
  else if c = 'n' then some (Char.ofNat 10)
  else if c = 'r' then some (Char.ofNat 13)
  else if c = 't' then some (Char.ofNat 9)
  else none

/-- Body of a JSON string literal, after the opening quote: returns the
decoded characters and the remainder after the closing quote.  Unescaped
control characters are rejected, as in `JSON.parse`.  `fuel` only bounds the
recursion; every call site supplies more fuel than input characters. -/
def parseStringBody : Nat → List Char → Option (List Char × List Char)
  | 0, _ => none
  | _ + 1, [] => none
  | fuel + 1, c :: cs =>
      if c = '"' then some ([], cs)
      else if c = '\\' then
        match cs with
        | [] => none
        | e :: cs' =>
            if e = 'u' then
              match cs' with
              | h1 :: h2 :: h3 :: h4 :: rest =>
                  match hexVal h1, hexVal h2, hexVal h3, hexVal h4 with
                  | some a, some b, some c4, some d =>
                      (parseStringBody fuel rest).map
                        (fun r => (Char.ofNat (((a * 16 + b) * 16 + c4) * 16 + d) :: r.1, r.2))
                  | _, _, _, _ => none
              | _ => none
            else
              match escChar e with
              | some ec => (parseStringBody fuel cs').map (fun r => (ec :: r.1, r.2))
              | none => none
      else if c.toNat < 32 then none
      else (parseStringBody fuel cs).map (fun r => (c :: r.1, r.2))

/-- Split the longest run of leading decimal digits. -/
def takeDigits : List Char → List Char × List Char
  | [] => ([], [])
  | c :: cs =>
      if '0' ≤ c && c ≤ '9' then
        let r := takeDigits cs
        (c :: r.1, r.2)
      else ([], c :: cs)

/-- Value of a digit string. -/
def digitsToNat : List Char → Nat
  | [] => 0
  | c :: cs => (c.toNat - '0'.toNat) * 10 ^ cs.length + digitsToNat cs

/-- A JSON integer literal: optional minus sign, digits, no redundant leading
zero (fractional and exponent parts are outside the model, see the header). -/
def parseNumber (cs : List Char) : Option (Int × List Char) :=
  let signed := match cs with
    | '-' :: r => (true, r)
    | _ => (false, cs)
  match takeDigits signed.2 with
  | ([], _) => none
  | (ds, rest) =>
      if 1 < ds.length && ds.headD ' ' = '0' then none
      else
        let n : Int := Int.ofNat (digitsToNat ds)
        some (if signed.1 then -n else n, rest)

mutual

/-- One JSON value with leading whitespace, recursive descent as in
`JSON.parse`; returns the value and the unconsumed remainder. -/
def parseVal : Nat → List Char → Option (Json × List Char)
  | 0, _ => none
  | fuel + 1, cs =>
      match skipWs cs with
      | [] => none
      | c :: rest =>
          if c = '"' then
            (parseStringBody (fuel + 1) rest).map (fun r => (Json.str (String.mk r.1), r.2))
          else if c = '\x7b' then
            parseMembersStart fuel rest
          else if c = '[' then
            parseElemsStart fuel rest
          else if c = 't' then
            match rest with
            | 'r' :: 'u' :: 'e' :: r => some (Json.bool true, r)
            | _ => none
          else if c = 'f' then
            match rest with
            | 'a' :: 'l' :: 's' :: 'e' :: r => some (Json.bool false, r)
            | _ => none
          else if c = 'n' then
            match rest with
            | 'u' :: 'l' :: 'l' :: r => some (Json.null, r)
            | _ => none
          else
            (parseNumber (c :: rest)).map (fun r => (Json.num r.1, r.2))
termination_by structural fuel _cs => fuel

/-- Object members after the opening brace: either an immediate closing brace
or a comma-separated member list. -/
def parseMembersStart : Nat → List Char → Option (Json × List Char)
  | 0, _ => none
  | fuel + 1, cs =>
      match skipWs cs with
      | '\x7d' :: rest => some (Json.obj [], rest)
      | other => parseMembers fuel other
termination_by structural fuel _cs => fuel

/-- A non-empty member list: `"key" : value` then `,` (more members) or the
closing brace. -/
def parseMembers : Nat → List Char → Option (Json × List Char)
  | 0, _ => none
  | fuel + 1, cs =>
      match skipWs cs with
      | '"' :: rest =>
          match parseStringBody (fuel + 1) rest with
          | none => none
          | some (key, afterKey) =>
              match skipWs afterKey with
              | ':' :: afterColon =>
                  match parseVal fuel afterColon with
                  | none => none
                  | some (v, afterVal) =>
                      match skipWs afterVal with
                      | ',' :: more =>
                          match parseMembers fuel more with
                          | some (Json.obj ms, rest') =>
                              some (Json.obj ((String.mk key, v) :: ms), rest')
                          | _ => none
                      | '\x7d' :: rest' => some (Json.obj [(String.mk key, v)], rest')
                      | _ => none
              | _ => none
      | _ => none
termination_by structural fuel _cs => fuel

/-- Array elements after the opening bracket: either an immediate closing
bracket or a comma-separated element list. -/
def parseElemsStart : Nat → List Char → Option (Json × List Char)
  | 0, _ => none
  | fuel + 1, cs =>
      match skipWs cs with
      | ']' :: rest => some (Json.arr [], rest)
      | other => parseElems fuel other
termination_by structural fuel _cs => fuel

/-- A non-empty element list: `value` then `,` (more elements) or the closing
bracket. -/
def parseElems : Nat → List Char → Option (Json × List Char)
  | 0, _ => none
  | fuel + 1, cs =>
      match parseVal fuel cs with
      | none => none
      | some (v, afterVal) =>
          match skipWs afterVal with
          | ',' :: more =>
              match parseElems fuel more with
              | some (Json.arr vs, rest') => some (Json.arr (v :: vs), rest')
              | _ => none
          | ']' :: rest' => some (Json.arr [v], rest')
          | _ => none
termination_by structural fuel _cs => fuel

end

/-- `JSON.parse(s)`: parse one value and require only whitespace after it;
`none` models the thrown `SyntaxError`. -/
def parseJson (s : String) : Option Json :=
  match parseVal (4 * s.length + 4) s.data with
  | some (v, rest) => if skipWs rest = [] then some v else none
  | none => none

example : parseJson "\x7b\"ok\":true\x7d" = some (Json.obj [("ok", Json.bool true)]) := by
  decide

example : parseJson "not json at all" = none := by decide

example : parseJson " [1, 2, -3] " = some (Json.arr [Json.num 1, Json.num 2, Json.num (-3)]) := by
  decide

example : parseJson "\x7b\"a\": \x7b\"b\": [true, null, \"x\"]\x7d\x7d" =
    some (Json.obj [("a", Json.obj [("b", Json.arr [Json.bool true, Json.null, Json.str "x"])])]) := by
  decide

/-- Decidable equality for `Except`, so settled promises can be compared by
evaluation. -/
instance {ε α : Type} [DecidableEq ε] [DecidableEq α] : DecidableEq (Except ε α) :=
  fun x y =>
    match x, y with
    | Except.ok a, Except.ok b =>
        if h : a = b then isTrue (by rw [h]) else isFalse (by simp [h])
    | Except.error a, Except.error b =>
        if h : a = b then isTrue (by rw [h]) else isFalse (by simp [h])
    | Except.ok _, Except.error _ => isFalse (by simp)
    | Except.error _, Except.ok _ => isFalse (by simp)

/-- The process environment variables the program reads (`process.env.*`);
`none` models an unset variable. -/
structure Env where
  garminEmail : Option String
  garminPassword : Option String
  apiKey : Option String
  garminApiUrl : Option String
deriving Repr, DecidableEq

/-- JavaScript falsiness of an environment-variable read: an unset variable
(`undefined`) and the empty string are both falsy. -/
def jsEnvFalsy : Option String → Bool
  | none => true
  | some s => s == ""

/-- `API_BASE_URL = process.env.GARMIN_API_URL || "https://…"`. -/
def apiBaseUrl (env : Env) : String :=
  match env.garminApiUrl with
  | some v => if v == "" then "https://fgggkckgk8osog4osgg4484k.mart1m.fr" else v
  | none => "https://fgggkckgk8osog4osgg4484k.mart1m.fr"

/-- `API_KEY = process.env.API_KEY || ""`. -/
def apiKeyValue (env : Env) : String :=
  match env.apiKey with
  | some v => v
  | none => ""

/-- The credential pair read per request from the environment. -/
structure Credentials where
  email : String
  password : String
deriving Repr, DecidableEq

/-- The message of the error thrown when a credential variable is missing. -/
def credentialsErrorMessage : String :=
  "GARMIN_EMAIL and GARMIN_PASSWORD environment variables are required"

/-- `getGarminCredentials`: reads `GARMIN_EMAIL` / `GARMIN_PASSWORD` and
throws (modelled by `Except.error`) when either is unset or empty. -/
def getGarminCredentials (env : Env) : Except String Credentials :=
  if jsEnvFalsy env.garminEmail || jsEnvFalsy env.garminPassword then
    Except.error credentialsErrorMessage
  else
    Except.ok ⟨env.garminEmail.getD "", env.garminPassword.getD ""⟩

/-- The outbound request handed to `https.request` (so by construction an
HTTPS request): method, the full URL `API_BASE_URL + endpoint` it was built
from, the header list in construction order, and the body written to the
socket (`none` when `req.write` is skipped). -/
structure HttpsRequest where
  method : String
  url : String
  headers : List (String × String)
  body : Option String
deriving Repr, DecidableEq

/-- What the network does for the single outbound request: either a response
(status code plus accumulated body text) or an `error` event on the request
object. -/
inductive NetReply where
  | response (statusCode : Nat) (body : String)
  | netError (message : String)
deriving Repr, DecidableEq

/-- The headers of `apiRequest`: the three fixed headers, plus `X-API-Key`
exactly when `API_KEY` is truthy (set and non-empty). -/
def requestHeaders (env : Env) (credentials : Credentials) : List (String × String) :=
  [("Content-Type", "application/json"),
   ("X-Garmin-Email", credentials.email),
   ("X-Garmin-Password", credentials.password)] ++
  (if apiKeyValue env == "" then [] else [("X-API-Key", apiKeyValue env)])

/-- The rejection message for a non-2xx response whose body parsed as
`parsed` (`JSON.stringify` here is the compact form). -/
def apiErrorMessage (statusCode : Nat) (parsed : Json) : String :=
  "API Error (" ++ toString statusCode ++ "): " ++ stringifyCompact parsed

/-- The rejection message when the response body is not valid JSON: it
carries the raw body text. -/
def parseFailureMessage (data : String) : String :=
  "Failed to parse response: " ++ data

/-- `apiRequest(method, endpoint, body)`: reads the credentials (throwing
before any request when they are missing), builds the request against
`API_BASE_URL + endpoint`, writes `JSON.stringify(body)` when `body` is
truthy, and settles the promise from the reply: a parse failure rejects with
the raw body text, a non-2xx status rejects with the status code and the
re-serialized JSON body, a 2xx status resolves with the parsed body.

The first component is the request actually issued (`none` when the code
failed before `https.request`); the second is the settled promise. -/
def apiRequest (env : Env) (method endpoint : String) (body : Option Json)
    (reply : NetReply) : Option HttpsRequest × Except String Json :=
  match getGarminCredentials env with
  | Except.error e => (none, Except.error e)
  | Except.ok credentials =>
    let url := apiBaseUrl env ++ endpoint
    let written := match body with
      | none => none
      | some j => if jsTruthy j then some (stringifyCompact j) else none
    let req : HttpsRequest :=
      { method := method, url := url, headers := requestHeaders env credentials,
        body := written }
    match reply with
    | NetReply.netError m => (some req, Except.error m)
    | NetReply.response statusCode data =>
      match parseJson data with
      | none => (some req, Except.error (parseFailureMessage data))
      | some parsed =>
        if 200 ≤ statusCode && statusCode < 300 then (some req, Except.ok parsed)
        else (some req, Except.error (apiErrorMessage statusCode parsed))

/-- `toolEndpointMap`: the static tool-name → endpoint-path table, in source
order.  The JS object literal is modelled as an association list over its own
keys. -/
def toolEndpointMap : List (String × String) :=
  [("upload_workout", "/api/workout/upload_workout"),
   ("get_workouts", "/api/workout/get_workouts"),
   ("get_workout_by_id", "/api/workout/get_workout_by_id"),
   ("prepare_workout", "/api/workout/prepare_workout"),
   ("get_activities", "/api/activities/get_activities"),
   ("get_last_activity", "/api/activities/get_last_activity"),
   ("get_activities_by_date", "/api/activities/get_activities_by_date"),
   ("get_activity", "/api/activities/get_activity"),
   ("get_activity_details", "/api/activities/get_activity_details"),
   ("get_activities_fordate", "/api/activities/get_activities_fordate"),
   ("get_daily_summary", "/api/health/get_daily_summary"),
   ("get_heart_rate_data", "/api/health/get_heart_rate_data"),
   ("get_sleep_data", "/api/health/get_sleep_data"),
   ("get_stress_data", "/api/health/get_stress_data"),
   ("get_body_battery", "/api/health/get_body_battery"),
   ("get_resting_heart_rate", "/api/health/get_resting_heart_rate"),
   ("get_hrv_data", "/api/health/get_hrv_data"),
   ("get_training_readiness", "/api/health/get_training_readiness"),
   ("get_steps_data", "/api/health/get_steps_data"),
   ("get_respiration_data", "/api/health/get_respiration_data"),
   ("get_spo2_data", "/api/health/get_spo2_data"),
   ("get_max_metrics", "/api/performance/get_max_metrics"),
   ("get_training_status", "/api/performance/get_training_status"),
   ("get_endurance_score", "/api/performance/get_endurance_score"),
   ("get_race_predictions", "/api/performance/get_race_predictions")]

/-- The own-key portion of the lookup `toolEndpointMap[name]` (the map's
values are all non-empty strings, so for own keys JS truthiness of the
looked-up value coincides with key membership).  The full JS property
lookup, prototype chain included, is `jsObjectGet`. -/
def lookupEndpoint (name : String) : Option String :=
  (toolEndpointMap.find? (fun p => p.1 == name)).map (fun p => p.2)

/-- The property names every plain object literal inherits from
`Object.prototype` (ECMA-262; `__proto__` is an inherited accessor).  Each
resolves to a function or object value, which is truthy, so looking one of
them up on `toolEndpointMap` passes the `!toolEndpointMap[name]` check. -/
def objectPrototypeProps : List String :=
  ["constructor", "hasOwnProperty", "isPrototypeOf", "propertyIsEnumerable",
   "toLocaleString", "toString", "valueOf", "__proto__",
   "__defineGetter__", "__defineSetter__", "__lookupGetter__",
   "__lookupSetter__"]

/-- What the JS lookup `toolEndpointMap[name]` yields: an own key shadows
the prototype and yields its endpoint path string; otherwise the name may
resolve to an inherited `Object.prototype` member (a truthy non-string
value); otherwise the lookup is `undefined` (falsy). -/
inductive PropValue where
  | ownPath (path : String)
  | inherited
  | absent
deriving Repr, DecidableEq

/-- `toolEndpointMap[name]`, prototype chain included. -/
def jsObjectGet (name : String) : PropValue :=
  match lookupEndpoint name with
  | some path => PropValue.ownPath path
  | none =>
      if objectPrototypeProps.contains name then PropValue.inherited
      else PropValue.absent

/-- When the looked-up endpoint is an inherited `Object.prototype` member,
the template literal in `apiRequest` stringifies it to text such as
`function toString() ...` or `[object Object]`; every such rendering
contains a character forbidden in a URL authority, so `new URL(url)` throws
a `TypeError` synchronously inside the promise executor — after the
credentials were read but before `https.request` — and the promise rejects.
`Invalid URL` is Node's message for that `TypeError`. -/
def urlErrorMessage : String := "Invalid URL"

/-- One element of a tool result's `content` array. -/
structure ContentItem where
  type : String
  text : String
deriving Repr, DecidableEq

/-- The object a call-tool handler invocation returns: the `content` array
and the optional `isError` flag (absent on the success branch). -/
structure CallToolResult where
  content : List ContentItem
  isError : Option Bool
deriving Repr, DecidableEq

/-- How a call-tool handler invocation ends: an exception propagating to the
MCP host (`thrown`), or a returned result object. -/
inductive CallToolOutcome where
  | thrown (message : String)
  | returned (result : CallToolResult)
deriving Repr, DecidableEq

/-- `const body = args || {}` in the call-tool handler. -/
def callBody (args : Option Json) : Json :=
  match args with
  | none => Json.obj []
  | some a => if jsTruthy a then a else Json.obj []

/-- The success result of the call-tool handler: one text block holding the
resolved JSON pretty-printed with 2-space indentation, no `isError` field. -/
def successResult (result : Json) : CallToolResult :=
  { content := [{ type := "text", text := stringifyIndent2 result }],
    isError := none }

/-- The error result of the call-tool handler's `catch` branch: one text
block holding `{success:false, error:<message>}` pretty-printed with 2-space
indentation, and `isError: true`. -/
def errorResult (message : String) : CallToolResult :=
  { content :=
      [{ type := "text",
         text := stringifyIndent2
           (Json.obj [("success", Json.bool false), ("error", Json.str message)]) }],
    isError := some true }

/-- The `CallToolRequestSchema` handler.  The `!toolEndpointMap[name]` check
throws `Unknown tool` only when the full property lookup is falsy
(`undefined`): a truly absent name throws before the network layer.  A name
resolving to an inherited `Object.prototype` member passes the check, so
`apiRequest` is entered with a non-string endpoint: the credentials are read
(their absence rejects as usual), then `new URL` throws before
`https.request` (see `urlErrorMessage`) — either way no outbound request,
and the rejection is caught like any other.  For an own key the settled
`apiRequest` promise is rendered as a success result, or (via the `catch`
around the `await`) as an `isError: true` result carrying
`{success:false, error:<message>}` — rejections from `apiRequest`,
including the missing-credentials throw, never propagate further.  The
first component is the outbound request, if any. -/
def handleCallTool (env : Env) (name : String) (args : Option Json)
    (reply : NetReply) : Option HttpsRequest × CallToolOutcome :=
  match jsObjectGet name with
  | PropValue.absent => (none, CallToolOutcome.thrown ("Unknown tool: " ++ name))
  | PropValue.inherited =>
      (none,
       CallToolOutcome.returned (errorResult
         (match getGarminCredentials env with
          | Except.error e => e
          | Except.ok _ => urlErrorMessage)))
  | PropValue.ownPath endpoint =>
    let outcome := apiRequest env "POST" endpoint (some (callBody args)) reply
    match outcome.2 with
    | Except.ok result => (outcome.1, CallToolOutcome.returned (successResult result))
    | Except.error e => (outcome.1, CallToolOutcome.returned (errorResult e))

/-- An own key of the endpoint map shadows the prototype chain. -/
theorem jsObjectGet_own (name endpoint : String)
    (h : lookupEndpoint name = some endpoint) :
    jsObjectGet name = PropValue.ownPath endpoint := by
  simp [jsObjectGet, h]

/-- A name resolving to an inherited member is not an own key. -/
theorem lookupEndpoint_none_of_inherited (name : String)
    (h : jsObjectGet name = PropValue.inherited) :
    lookupEndpoint name = none := by
  cases hl : lookupEndpoint name with
  | none => rfl
  | some path => simp [jsObjectGet, hl] at h

/-- One entry of the static `tools` array: exactly the three fields each
element of the source array carries. -/
structure ToolDefinition where
  name : String
  description : String
  inputSchema : Json
deriving Repr, DecidableEq

/-- The static catalog `tools` of `src/index.js`: 25 tool definitions
(name, description, input schema), transcribed verbatim in source order. -/
def tools : List ToolDefinition :=
  [(ToolDefinition.mk "upload_workout"
    "Upload a workout to Garmin Connect. The workout must be a SINGLE JSON object starting directly with \x7b\"workoutName\": ...\x7d. Do NOT wrap in arrays or \"output\" objects.\n\n🧩 STRUCTURE GARMIN REQUIRED:\n\nRoot structure:\n\x7b\n  \"workoutName\": \"YYYY-MM-DD - Workout Name\",\n  \"sportType\": \x7b\"sportTypeId\": 1, \"sportTypeKey\": \"running\", \"displayOrder\": 1\x7d,\n  \"author\": \x7b\x7d,\n  \"estimatedDurationInSecs\": <sum of all executable durations including repetitions>,\n  \"workoutSegments\": [\x7b \"segmentOrder\": 1, \"sportType\": \x7b...\x7d, \"workoutSteps\": [...] \x7d]\n\x7d\n\n🧱 STEP TYPES:\n\nExecutableStepDTO (single step):\n- type: \"ExecutableStepDTO\"\n- stepOrder: >=1 (sequential)\n- stepType: \x7bstepTypeId, stepTypeKey, displayOrder\x7d\n- endCondition: \x7bconditionTypeId, conditionTypeKey, displayOrder, displayable\x7d\n- endConditionValue: number (seconds or meters)\n- targetType: \x7bworkoutTargetTypeId, workoutTargetTypeKey, displayOrder\x7d\n- strokeType: \x7bstrokeTypeId: 0, displayOrder: 0\x7d\n- equipmentType: \x7bequipmentTypeId: 0, displayOrder: 0\x7d\n- numberOfIterations: 1\n- workoutSteps: []\n- smartRepeat: false\nFORBIDDEN on ExecutableStepDTO: workoutSteps with content, smartRepeat=true, numberOfIterations != 1\n\nRepeatGroupDTO (repeating group):\n- type: \"RepeatGroupDTO\"\n- stepOrder: >=1 (sequential)\n- stepType: \x7bstepTypeId: 6, stepTypeKey: \"repeat\", displayOrder: 6\x7d\n- numberOfIterations: >=1 (number of repeats)\n- endCondition: \x7bconditionTypeId: 7, conditionTypeKey: \"iterations\", displayOrder: 7, displayable: false\x7d\n- endConditionValue: number of iterations\n- targetType: \x7bworkoutTargetTypeId: 1, workoutTargetTypeKey: \"no.target\", displayOrder: 1\x7d\n- strokeType: \x7bstrokeTypeId: 0, displayOrder: 0\x7d\n- equipmentType: \x7bequipmentTypeId: 0, displayOrder: 0\x7d\n- smartRepeat: false\n- workoutSteps: [ ...child steps... ]\nFORBIDDEN on RepeatGroupDTO: targetValueOne, targetValueTwo\n\n⚙️ MAPPINGS GARMIN:\n\nstepType:\n- warmup: stepTypeId=1, stepTypeKey=\"warmup\", displayOrder=1\n- cooldown: stepTypeId=2, stepTypeKey=\"cooldown\", displayOrder=2\n- interval: stepTypeId=3, stepTypeKey=\"interval\", displayOrder=3\n- recovery: stepTypeId=4, stepTypeKey=\"recovery\", displayOrder=4\n- repeat: stepTypeId=6, stepTypeKey=\"repeat\", displayOrder=6\n\nendCondition:\n- time: conditionTypeId=2, conditionTypeKey=\"time\", displayOrder=2, displayable=true\n- distance: conditionTypeId=3, conditionTypeKey=\"distance\", displayOrder=3, displayable=true\n- iterations: conditionTypeId=7, conditionTypeKey=\"iterations\", displayOrder=7, displayable=false\n\ntargetType:\n- no.target: workoutTargetTypeId=1, workoutTargetTypeKey=\"no.target\", displayOrder=1\n- pace.zone: workoutTargetTypeId=6, workoutTargetTypeKey=\"pace.zone\", displayOrder=6\n\n🧭 PACE ZONE CONVERSION (CRITICAL):\n\nFor any pace in \"m:ss/km\" format (e.g., 3:50/km):\n\n1. Parse: minutes = integer before \":\", seconds = integer after \":\"\n2. Calculate: paceSec = (minutes × 60) + seconds\n3. If paceSec < 60 or paceSec > 420 → use no.target instead\n4. Create ±5s band:\n   - lowerSec = paceSec + 5 (slower, higher seconds)\n   - upperSec = paceSec - 5 (faster, lower seconds)\n5. Convert to m/s (Garmin requires m/s format):\n   - lowerMs = 1000 / lowerSec (slower pace = lower m/s)\n   - upperMs = 1000 / upperSec (faster pace = higher m/s)\n6. Apply: targetValueOne = upperMs, targetValueTwo = lowerMs\n\nExample: 3:50/km\n- paceSec = 230\n- lowerSec = 235, upperSec = 225\n- lowerMs = 1000/235 = 4.255, upperMs = 1000/225 = 4.444\n- targetValueOne = 4.444 (faster), targetValueTwo = 4.255 (slower)\n\nCRITICAL: targetValueOne > targetValueTwo (faster = higher m/s)\n\nIMPORTANT RULES:\n- Never use speed.zone if you want min/km display - use pace.zone\n- Never set pace target on warmup/recovery/cooldown\n- Never set pace target on RepeatGroupDTO level\n- zoneNumber: can be 1 or null (both work)\n- targetValueUnit: should be null for pace zones\n\n🧠 DURATIONS, DISTANCES, SUMS:\n- time: in seconds\n- distance: in meters\n- If distance + pace zone: estimated duration = distance_m / ((targetValueOne + targetValueTwo) / 2)\n- estimatedDurationInSecs: exact sum of all executable durations, repetitions included\n  Example: warmup 900s + (3×100m + 3×45s) + (12×400m + 12×75s) + cooldown 600s = 3939s\n\n🧩 COMPOSITION RULES:\n- \"interval\", \"vma\", \"hills\" → require at least one RepeatGroupDTO\n- \"tempo\", \"endurance\", \"easy\", \"long_run\" → no RepeatGroupDTO (only ExecutableStepDTO)\n- Defaults if not specified: Warmup=300s, Cooldown=300s\n- \"10x(30/30)\" = RepeatGroupDTO (10 iterations: 30s interval + 30s recovery)\n- \"2x10x(30/30) + 3\x27 between series\" = RepeatGroupDTO + 180s recovery + RepeatGroupDTO\n- \"Lignes droites\" = RepeatGroupDTO 3× (100m interval + 45s recovery), no target\n\nCOMMON ERRORS TO AVOID:\n- Do NOT include workoutId, ownerId, stepId, childStepId (auto-cleaned if auto_clean=true)\n- Do NOT wrap in array or \"output\" object - send workout object directly\n- Do NOT use \"kind\" field - it doesn\x27t exist\n- Ensure all IDs are present (stepTypeId, conditionTypeId, etc.), not just keys\n- targetValueOne must be > targetValueTwo for pace zones\n\nGenerated IDs will be automatically cleaned if auto_clean=true (default)."
    (Json.obj [("type", Json.str "object"),
        ("properties", Json.obj [("workout_json", Json.obj [("type", Json.arr [Json.str "object",
              Json.str "string"]),
            ("description", Json.str "Workout in JSON format (string or object). Must follow Garmin API structure with all required fields. Send the workout object directly, not wrapped in array or \x27output\x27 object.\n\nExample minimal structure:\n\x7b\n  \"workoutName\": \"My Workout\",\n  \"sportType\": \x7b\"sportTypeId\": 1, \"sportTypeKey\": \"running\", \"displayOrder\": 1\x7d,\n  \"author\": \x7b\x7d,\n  \"workoutSegments\": [\x7b\n    \"segmentOrder\": 1,\n    \"sportType\": \x7b\"sportTypeId\": 1, \"sportTypeKey\": \"running\", \"displayOrder\": 1\x7d,\n    \"workoutSteps\": [...]\n  \x7d]\n\x7d")]),
          ("auto_clean", Json.obj [("type", Json.str "boolean"),
            ("description", Json.str "If true (default), automatically clean the workout by removing generated IDs (workoutId, stepId, childStepId, ownerId) before upload."),
            ("default", Json.bool true)])]),
        ("required", Json.arr [Json.str "workout_json"])])),
(ToolDefinition.mk "get_workouts"
    "Get list of workouts"
    (Json.obj [("type", Json.str "object"),
        ("properties", Json.obj [("start", Json.obj [("type", Json.str "number"),
            ("default", Json.num 0)]),
          ("limit", Json.obj [("type", Json.str "number"),
            ("default", Json.num 10)])])])),
(ToolDefinition.mk "get_workout_by_id"
    "Get a workout by ID"
    (Json.obj [("type", Json.str "object"),
        ("properties", Json.obj [("workout_id", Json.obj [("type", Json.arr [Json.str "number",
              Json.str "string"]),
            ("description", Json.str "Workout ID")])]),
        ("required", Json.arr [Json.str "workout_id"])])),
(ToolDefinition.mk "prepare_workout"
    "Prepare a workout for upload by cleaning it"
    (Json.obj [("type", Json.str "object"),
        ("properties", Json.obj [("workout_json", Json.obj [("type", Json.arr [Json.str "object",
              Json.str "string"]),
            ("description", Json.str "Workout JSON to clean")])]),
        ("required", Json.arr [Json.str "workout_json"])])),
(ToolDefinition.mk "get_activities"
    "Get list of activities. Returns simplified activities by default (~200 tokens each) with only essential fields for analysis. Set simplify=false for full data (~1000 tokens each). Limited to 20 activities maximum."
    (Json.obj [("type", Json.str "object"),
        ("properties", Json.obj [("start", Json.obj [("type", Json.str "number"),
            ("default", Json.num 0)]),
          ("limit", Json.obj [("type", Json.str "number"),
            ("default", Json.num 10)]),
          ("activitytype", Json.obj [("type", Json.str "string"),
            ("description", Json.str "Filter by activity type")]),
          ("simplify", Json.obj [("type", Json.str "boolean"),
            ("default", Json.bool true),
            ("description", Json.str "If true (default), returns only essential fields for analysis (~200 tokens/activity). If false, returns full activity data (~1000 tokens/activity)")])])])),
(ToolDefinition.mk "get_last_activity"
    "Get the most recent activity"
    (Json.obj [("type", Json.str "object"),
        ("properties", Json.obj [])])),
(ToolDefinition.mk "get_activities_by_date"
    "Get activities within a date range"
    (Json.obj [("type", Json.str "object"),
        ("properties", Json.obj [("startdate", Json.obj [("type", Json.str "string"),
            ("description", Json.str "Start date (YYYY-MM-DD)")]),
          ("enddate", Json.obj [("type", Json.str "string"),
            ("description", Json.str "End date (YYYY-MM-DD)")]),
          ("activitytype", Json.obj [("type", Json.str "string")]),
          ("sortorder", Json.obj [("type", Json.str "string"),
            ("enum", Json.arr [Json.str "asc",
              Json.str "desc"])]),
          ("fields", Json.obj [("type", Json.str "array"),
            ("items", Json.obj [("type", Json.str "string")]),
            ("description", Json.str "List of fields to include in the response")])]),
        ("required", Json.arr [Json.str "startdate",
          Json.str "enddate"])])),
(ToolDefinition.mk "get_activity"
    "Get a specific activity by ID"
    (Json.obj [("type", Json.str "object"),
        ("properties", Json.obj [("activity_id", Json.obj [("type", Json.arr [Json.str "number",
              Json.str "string"]),
            ("description", Json.str "Activity ID")])]),
        ("required", Json.arr [Json.str "activity_id"])])),
(ToolDefinition.mk "get_activity_details"
    "Get comprehensive activity details"
    (Json.obj [("type", Json.str "object"),
        ("properties", Json.obj [("activity_id", Json.obj [("type", Json.arr [Json.str "number",
              Json.str "string"]),
            ("description", Json.str "Activity ID")]),
          ("maxchart", Json.obj [("type", Json.str "number"),
            ("default", Json.num 2000)]),
          ("maxpoly", Json.obj [("type", Json.str "number"),
            ("default", Json.num 4000)])]),
        ("required", Json.arr [Json.str "activity_id"])])),
(ToolDefinition.mk "get_activities_fordate"
    "Get activities for a specific date"
    (Json.obj [("type", Json.str "object"),
        ("properties", Json.obj [("date", Json.obj [("type", Json.str "string"),
            ("description", Json.str "Date (YYYY-MM-DD)")])]),
        ("required", Json.arr [Json.str "date"])])),
(ToolDefinition.mk "get_daily_summary"
    "Get daily health summary"
    (Json.obj [("type", Json.str "object"),
        ("properties", Json.obj [("date", Json.obj [("type", Json.str "string"),
            ("description", Json.str "Date (YYYY-MM-DD)")])])])),
(ToolDefinition.mk "get_heart_rate_data"
    "Get heart rate data"
    (Json.obj [("type", Json.str "object"),
        ("properties", Json.obj [("date", Json.obj [("type", Json.str "string"),
            ("description", Json.str "Date (YYYY-MM-DD)")])]),
        ("required", Json.arr [Json.str "date"])])),
(ToolDefinition.mk "get_sleep_data"
    "Get sleep data"
    (Json.obj [("type", Json.str "object"),
        ("properties", Json.obj [("date", Json.obj [("type", Json.str "string"),
            ("description", Json.str "Date (YYYY-MM-DD)")])]),
        ("required", Json.arr [Json.str "date"])])),
(ToolDefinition.mk "get_stress_data"
    "Get stress data"
    (Json.obj [("type", Json.str "object"),
        ("properties", Json.obj [("date", Json.obj [("type", Json.str "string"),
            ("description", Json.str "Date (YYYY-MM-DD)")])]),
        ("required", Json.arr [Json.str "date"])])),
(ToolDefinition.mk "get_body_battery"
    "Get body battery data"
    (Json.obj [("type", Json.str "object"),
        ("properties", Json.obj [("startdate", Json.obj [("type", Json.str "string"),
            ("description", Json.str "Start date (YYYY-MM-DD)")]),
          ("enddate", Json.obj [("type", Json.str "string"),
            ("description", Json.str "End date (YYYY-MM-DD)")])]),
        ("required", Json.arr [Json.str "startdate"])])),
(ToolDefinition.mk "get_resting_heart_rate"
    "Get resting heart rate"
    (Json.obj [("type", Json.str "object"),
        ("properties", Json.obj [("date", Json.obj [("type", Json.str "string"),
            ("description", Json.str "Date (YYYY-MM-DD)")])]),
        ("required", Json.arr [Json.str "date"])])),
(ToolDefinition.mk "get_hrv_data"
    "Get HRV (Heart Rate Variability) data"
    (Json.obj [("type", Json.str "object"),
        ("properties", Json.obj [("date", Json.obj [("type", Json.str "string"),
            ("description", Json.str "Date (YYYY-MM-DD)")])]),
        ("required", Json.arr [Json.str "date"])])),
(ToolDefinition.mk "get_training_readiness"
    "Get training readiness score"
    (Json.obj [("type", Json.str "object"),
        ("properties", Json.obj [("date", Json.obj [("type", Json.str "string"),
            ("description", Json.str "Date (YYYY-MM-DD)")])]),
        ("required", Json.arr [Json.str "date"])])),
(ToolDefinition.mk "get_steps_data"
    "Get steps data"
    (Json.obj [("type", Json.str "object"),
        ("properties", Json.obj [("date", Json.obj [("type", Json.str "string"),
            ("description", Json.str "Date (YYYY-MM-DD)")])]),
        ("required", Json.arr [Json.str "date"])])),
(ToolDefinition.mk "get_respiration_data"
    "Get respiration data"
    (Json.obj [("type", Json.str "object"),
        ("properties", Json.obj [("date", Json.obj [("type", Json.str "string"),
            ("description", Json.str "Date (YYYY-MM-DD)")])]),
        ("required", Json.arr [Json.str "date"])])),
(ToolDefinition.mk "get_spo2_data"
    "Get SpO2 (blood oxygen) data"
    (Json.obj [("type", Json.str "object"),
        ("properties", Json.obj [("date", Json.obj [("type", Json.str "string"),
            ("description", Json.str "Date (YYYY-MM-DD)")])]),
        ("required", Json.arr [Json.str "date"])])),
(ToolDefinition.mk "get_max_metrics"
    "Get VO2 Max and Fitness Age"
    (Json.obj [("type", Json.str "object"),
        ("properties", Json.obj [("date", Json.obj [("type", Json.str "string"),
            ("description", Json.str "Date (YYYY-MM-DD)")])]),
        ("required", Json.arr [Json.str "date"])])),
(ToolDefinition.mk "get_training_status"
    "Get training status and load"
    (Json.obj [("type", Json.str "object"),
        ("properties", Json.obj [("date", Json.obj [("type", Json.str "string"),
            ("description", Json.str "Date (YYYY-MM-DD)")])]),
        ("required", Json.arr [Json.str "date"])])),
(ToolDefinition.mk "get_endurance_score"
    "Get endurance score"
    (Json.obj [("type", Json.str "object"),
        ("properties", Json.obj [("startdate", Json.obj [("type", Json.str "string"),
            ("description", Json.str "Start date (YYYY-MM-DD)")]),
          ("enddate", Json.obj [("type", Json.str "string"),
            ("description", Json.str "End date (YYYY-MM-DD)")])]),
        ("required", Json.arr [Json.str "startdate"])])),
(ToolDefinition.mk "get_race_predictions"
    "Get race time predictions"
    (Json.obj [("type", Json.str "object"),
        ("properties", Json.obj [("startdate", Json.obj [("type", Json.str "string"),
            ("description", Json.str "Start date (YYYY-MM-DD)")]),
          ("enddate", Json.obj [("type", Json.str "string"),
            ("description", Json.str "End date (YYYY-MM-DD)")]),
          ("prediction_type", Json.obj [("type", Json.str "string"),
            ("enum", Json.arr [Json.str "latest",
              Json.str "daily"])])])]))
  ]

/-- One element of the list the `ListToolsRequestSchema` handler returns:
the object literal built per tool from `name`, `description` and
`inputSchema`. -/
structure ListedTool where
  name : String
  description : String
  inputSchema : Json
deriving Repr, DecidableEq

/-- The `ListToolsRequestSchema` handler: a total function of no inputs that
maps the static catalog to the returned tool list. -/
def handleListTools : List ListedTool :=
  tools.map (fun tool =>
    { name := tool.name, description := tool.description,
      inputSchema := tool.inputSchema })

/-- Does `pat` occur as a prefix of some suffix of the character list (i.e.
as a contiguous substring)? -/
def containsSub (pat : List Char) : List Char → Bool
  | [] => pat.isPrefixOf []
  | c :: cs => pat.isPrefixOf (c :: cs) || containsSub pat cs

/-- Substring containment on strings. -/
def strContains (s pat : String) : Bool := containsSub pat.data s.data

theorem isPrefixOf_append_self (p b : List Char) : p.isPrefixOf (p ++ b) = true := by
  induction p with
  | nil => simp [List.isPrefixOf]
  | cons c cs ih => simp [List.isPrefixOf, ih]

theorem containsSub_append_left (a : List Char) {pat rest : List Char}
    (h : containsSub pat rest = true) : containsSub pat (a ++ rest) = true := by
  induction a with
  | nil => simpa using h
  | cons c cs ih => simp [containsSub, ih]

theorem containsSub_append_self (pat b : List Char) :
    containsSub pat (pat ++ b) = true := by
  cases pat with
  | nil =>
      cases b <;> simp [containsSub, List.isPrefixOf]
  | cons c cs =>
      simp [containsSub, isPrefixOf_append_self]

/-- A string occurs in any concatenation that has it as the middle piece. -/
theorem strContains_middle (a pat b : String) :
    strContains (a ++ pat ++ b) pat = true := by
  show containsSub pat.data (a ++ pat ++ b).data = true
  have : (a ++ pat ++ b).data = a.data ++ (pat.data ++ b.data) := by
    simp [String.data_append, List.append_assoc]
  rw [this]
  exact containsSub_append_left a.data (containsSub_append_self pat.data b.data)

/-- A string occurs in any concatenation that ends with it. -/
theorem strContains_suffix (a pat : String) :
    strContains (a ++ pat) pat = true := by
  have h := strContains_middle a pat ""
  simpa using h

/-- Environment fixture: all four variables set. -/
def envFull : Env :=
  { garminEmail := some "user@example.com", garminPassword := some "hunter2",
    apiKey := some "secret-key", garminApiUrl := none }

/-- Environment fixture: `GARMIN_EMAIL` unset. -/
def envNoEmail : Env :=
  { garminEmail := none, garminPassword := some "hunter2",
    apiKey := none, garminApiUrl := none }

/-- Environment fixture: `GARMIN_PASSWORD` set but empty. -/
def envEmptyPassword : Env :=
  { garminEmail := some "user@example.com", garminPassword := some "",
    apiKey := none, garminApiUrl := none }

/-- C1: the 25 catalog names are pairwise distinct and coincide, entry for
entry, with the 25 keys of the endpoint map, so catalog names and endpoint
keys are in bijection. -/
theorem claim1_catalog_endpoint_bijection :
    tools.length = 25 ∧ toolEndpointMap.length = 25 ∧
    (tools.map ToolDefinition.name).Nodup ∧
    (toolEndpointMap.map Prod.fst).Nodup ∧
    tools.map ToolDefinition.name = toolEndpointMap.map Prod.fst := by
  refine ⟨by decide, by decide, by decide, by decide, by decide⟩

/-- C2 (counterexample): `toString` is not a key of the endpoint map, yet
`toolEndpointMap["toString"]` resolves to the truthy inherited
`Object.prototype.toString`, so the invocation does not throw the
`Unknown tool` condition and `apiRequest` is reached — observably: with
`GARMIN_EMAIL` unset the result carries the credentials failure produced
inside `apiRequest`, and with credentials present the `new URL` failure.
(No outbound request is made either way, but not for the claimed
reason.) -/
theorem claim2_counterexample :
    lookupEndpoint "toString" = none ∧
    jsObjectGet "toString" = PropValue.inherited ∧
    (handleCallTool envNoEmail "toString" none (NetReply.response 200 "null")).2 ≠
      CallToolOutcome.thrown ("Unknown tool: " ++ "toString") ∧
    (handleCallTool envNoEmail "toString" none (NetReply.response 200 "null")).2 =
      CallToolOutcome.returned (errorResult credentialsErrorMessage) ∧
    (handleCallTool envFull "toString" none (NetReply.response 200 "null")).2 =
      CallToolOutcome.returned (errorResult urlErrorMessage) ∧
    (handleCallTool envFull "toString" none (NetReply.response 200 "null")).1 =
      none := by
  refine ⟨by decide, by decide, by decide, by decide, by decide, by decide⟩

/-- C2 (amended): a call-tool invocation whose name is neither a key of the
endpoint map nor an inherited `Object.prototype` property name (so the
lookup is genuinely falsy) throws `Unknown tool: <name>` and issues no
outbound request (`apiRequest` is never reached, so the first component is
`none`). -/
theorem claim2_unknown_tool_throws (env : Env) (name : String)
    (args : Option Json) (reply : NetReply)
    (h : jsObjectGet name = PropValue.absent) :
    handleCallTool env name args reply =
      (none, CallToolOutcome.thrown ("Unknown tool: " ++ name)) := by
  simp [handleCallTool, h]

theorem claim2_unknown_tool_throws_witness :
    jsObjectGet "get_weather" = PropValue.absent ∧
    handleCallTool envFull "get_weather" none (NetReply.response 200 "null") =
      (none, CallToolOutcome.thrown ("Unknown tool: " ++ "get_weather")) :=
  ⟨by decide,
   claim2_unknown_tool_throws envFull "get_weather" none
     (NetReply.response 200 "null") (by decide)⟩

/-- C3 (counterexample): with `GARMIN_EMAIL` unset and a known tool, the
invocation does not end in a thrown condition: the handler catches the
credentials throw and returns the same error-flagged result shape used for
remote failures, refuting the claimed thrown/error-flagged distinction. -/
theorem claim3_counterexample :
    handleCallTool envNoEmail "get_workouts" none (NetReply.response 200 "null") =
      (none, CallToolOutcome.returned (errorResult credentialsErrorMessage)) ∧
    (handleCallTool envNoEmail "get_workouts" none (NetReply.response 200 "null")).2 ≠
      CallToolOutcome.thrown credentialsErrorMessage ∧
    (errorResult credentialsErrorMessage).isError = some true := by
  refine ⟨by decide, by decide, by decide⟩

/-- C3 (amended): with `GARMIN_EMAIL` or `GARMIN_PASSWORD` missing or empty
and a known tool, the request helper throws before any network call (no
outbound request, `Except.error`), and the call-tool handler surfaces this
as the non-throwing error-flagged result used for remote failures. -/
theorem claim3_missing_credentials (env : Env) (name endpoint : String)
    (args : Option Json) (reply : NetReply)
    (hcred : (jsEnvFalsy env.garminEmail || jsEnvFalsy env.garminPassword) = true)
    (hknown : lookupEndpoint name = some endpoint) :
    apiRequest env "POST" endpoint (some (callBody args)) reply =
      (none, Except.error credentialsErrorMessage) ∧
    handleCallTool env name args reply =
      (none, CallToolOutcome.returned (errorResult credentialsErrorMessage)) := by
  have hget : getGarminCredentials env = Except.error credentialsErrorMessage := by
    simp [getGarminCredentials, hcred]
  constructor
  · simp [apiRequest, hget]
  · simp [handleCallTool, jsObjectGet_own name endpoint hknown, apiRequest, hget]

theorem claim3_missing_credentials_witness :
    (jsEnvFalsy envEmptyPassword.garminEmail ||
      jsEnvFalsy envEmptyPassword.garminPassword) = true ∧
    lookupEndpoint "get_sleep_data" = some "/api/health/get_sleep_data" ∧
    (apiRequest envEmptyPassword "POST" "/api/health/get_sleep_data"
        (some (callBody none)) (NetReply.response 200 "null") =
      (none, Except.error credentialsErrorMessage) ∧
    handleCallTool envEmptyPassword "get_sleep_data" none (NetReply.response 200 "null") =
      (none, CallToolOutcome.returned (errorResult credentialsErrorMessage))) :=
  ⟨by decide, by decide,
   claim3_missing_credentials envEmptyPassword "get_sleep_data"
     "/api/health/get_sleep_data" none (NetReply.response 200 "null")
     (by decide) (by decide)⟩

/-- C4 (counterexample): a 404 whose JSON body is `{"ok": true}` (note the
space) produces the error message `API Error (404): {"ok":true}` built from
the *re-serialized* body, which does not contain the response body as
received. -/
theorem claim4_counterexample :
    (handleCallTool envFull "get_workouts" none
        (NetReply.response 404 "\x7b\"ok\": true\x7d")).2 =
      CallToolOutcome.returned
        (errorResult "API Error (404): \x7b\"ok\":true\x7d") ∧
    strContains "API Error (404): \x7b\"ok\":true\x7d" "\x7b\"ok\": true\x7d" = false := by
  refine ⟨by decide, by decide⟩

/-- C4 (amended): on a non-2xx response with a JSON body, the handler
returns (never throws) an `isError: true` result whose content is the
pretty-printed `{success:false, error:<message>}`, where the message
contains the status code and the compact re-serialization of the parsed
body (equal to the body itself whenever the body is compactly
serialized). -/
theorem claim4_http_error_flagged (env : Env) (name endpoint : String)
    (args : Option Json) (c : Credentials) (status : Nat) (data : String)
    (v : Json)
    (hknown : lookupEndpoint name = some endpoint)
    (hcred : getGarminCredentials env = Except.ok c)
    (hparse : parseJson data = some v)
    (hstatus : (200 ≤ status && status < 300) = false) :
    (handleCallTool env name args (NetReply.response status data)).2 =
      CallToolOutcome.returned (errorResult (apiErrorMessage status v)) ∧
    strContains (apiErrorMessage status v) (toString status) = true ∧
    strContains (apiErrorMessage status v) (stringifyCompact v) = true := by
  refine ⟨?_, ?_, ?_⟩
  · simp [handleCallTool, jsObjectGet_own name endpoint hknown, apiRequest,
          hcred, hparse, hstatus]
  · have h : apiErrorMessage status v =
        "API Error (" ++ toString status ++ ("): " ++ stringifyCompact v) := by
      simp [apiErrorMessage, String.append_assoc]
    rw [h]
    exact strContains_middle _ _ _
  · have h : apiErrorMessage status v =
        ("API Error (" ++ toString status ++ "): ") ++ stringifyCompact v := by
      simp [apiErrorMessage, String.append_assoc]
    rw [h]
    exact strContains_suffix _ _

theorem claim4_http_error_flagged_witness :
    lookupEndpoint "get_workouts" = some "/api/workout/get_workouts" ∧
    getGarminCredentials envFull = Except.ok ⟨"user@example.com", "hunter2"⟩ ∧
    parseJson "\x7b\"ok\":true\x7d" = some (Json.obj [("ok", Json.bool true)]) ∧
    ((handleCallTool envFull "get_workouts" none
        (NetReply.response 404 "\x7b\"ok\":true\x7d")).2 =
      CallToolOutcome.returned
        (errorResult (apiErrorMessage 404 (Json.obj [("ok", Json.bool true)]))) ∧
    strContains (apiErrorMessage 404 (Json.obj [("ok", Json.bool true)]))
        (toString 404) = true ∧
    strContains (apiErrorMessage 404 (Json.obj [("ok", Json.bool true)]))
        (stringifyCompact (Json.obj [("ok", Json.bool true)])) = true) :=
  ⟨by decide, by decide, by decide,
   claim4_http_error_flagged envFull "get_workouts" "/api/workout/get_workouts"
     none ⟨"user@example.com", "hunter2"⟩ 404 "\x7b\"ok\":true\x7d"
     (Json.obj [("ok", Json.bool true)])
     (by decide) (by decide) (by decide) (by decide)⟩

/-- C5: whatever the status code, a response body that is not valid JSON
yields an error-flagged result whose message is
`Failed to parse response: <raw body>`, which contains the raw body text. -/
theorem claim5_unparsable_body_flagged (env : Env) (name endpoint : String)
    (args : Option Json) (c : Credentials) (status : Nat) (data : String)
    (hknown : lookupEndpoint name = some endpoint)
    (hcred : getGarminCredentials env = Except.ok c)
    (hparse : parseJson data = none) :
    (handleCallTool env name args (NetReply.response status data)).2 =
      CallToolOutcome.returned (errorResult (parseFailureMessage data)) ∧
    strContains (parseFailureMessage data) data = true := by
  constructor
  · simp [handleCallTool, jsObjectGet_own name endpoint hknown, apiRequest,
          hcred, hparse]
  · exact strContains_suffix "Failed to parse response: " data

theorem claim5_unparsable_body_flagged_witness :
    lookupEndpoint "get_steps_data" = some "/api/health/get_steps_data" ∧
    getGarminCredentials envFull = Except.ok ⟨"user@example.com", "hunter2"⟩ ∧
    parseJson "<html>Bad Gateway</html>" = none ∧
    ((handleCallTool envFull "get_steps_data" none
        (NetReply.response 200 "<html>Bad Gateway</html>")).2 =
      CallToolOutcome.returned
        (errorResult (parseFailureMessage "<html>Bad Gateway</html>")) ∧
    strContains (parseFailureMessage "<html>Bad Gateway</html>")
        "<html>Bad Gateway</html>" = true) :=
  ⟨by decide, by decide, by decide,
   claim5_unparsable_body_flagged envFull "get_steps_data"
     "/api/health/get_steps_data" none ⟨"user@example.com", "hunter2"⟩ 200
     "<html>Bad Gateway</html>" (by decide) (by decide) (by decide)⟩

theorem parseJson_ok_true :
    parseJson "\x7b\"ok\":true\x7d" = some (Json.obj [("ok", Json.bool true)]) := by
  decide

/-- C6: a 200 response with body `{"ok":true}` yields a success result (no
`isError`) whose single text block is exactly the 2-space pretty-printing of
`{"ok":true}`. -/
theorem claim6_ok_response_pretty (env : Env) (name endpoint : String)
    (args : Option Json) (c : Credentials)
    (hknown : lookupEndpoint name = some endpoint)
    (hcred : getGarminCredentials env = Except.ok c) :
    (handleCallTool env name args (NetReply.response 200 "\x7b\"ok\":true\x7d")).2 =
      CallToolOutcome.returned (successResult (Json.obj [("ok", Json.bool true)])) ∧
    successResult (Json.obj [("ok", Json.bool true)]) =
      CallToolResult.mk [ContentItem.mk "text" "\x7b\n  \"ok\": true\n\x7d"] none := by
  refine ⟨?_, by decide⟩
  simp [handleCallTool, jsObjectGet_own name endpoint hknown, apiRequest, hcred,
        parseJson_ok_true]

theorem claim6_ok_response_pretty_witness :
    lookupEndpoint "get_last_activity" = some "/api/activities/get_last_activity" ∧
    getGarminCredentials envFull = Except.ok ⟨"user@example.com", "hunter2"⟩ ∧
    ((handleCallTool envFull "get_last_activity" none
        (NetReply.response 200 "\x7b\"ok\":true\x7d")).2 =
      CallToolOutcome.returned (successResult (Json.obj [("ok", Json.bool true)])) ∧
    successResult (Json.obj [("ok", Json.bool true)]) =
      CallToolResult.mk [ContentItem.mk "text" "\x7b\n  \"ok\": true\n\x7d"] none) :=
  ⟨by decide, by rfl,
   claim6_ok_response_pretty envFull "get_last_activity"
     "/api/activities/get_last_activity" none ⟨"user@example.com", "hunter2"⟩
     (by decide) (by rfl)⟩

/-- Split a character list on a separator (used to state the endpoint-path
shape `/api/{category}/{tool_name}`). -/
def splitOnChar (sep : Char) : List Char → List (List Char)
  | [] => [[]]
  | c :: cs =>
      if c = sep then [] :: splitOnChar sep cs
      else
        match splitOnChar sep cs with
        | [] => [[c]]
        | g :: gs => (c :: g) :: gs

/-- Does `path` have the shape `/api/{category}/{name}` with a non-empty
category and `name` as the final segment? -/
def endpointShaped (name path : String) : Bool :=
  match splitOnChar '/' path.data with
  | [pre, api, category, last] =>
      pre == ([] : List Char) && api == "api".data && category ≠ [] &&
        last == name.data
  | _ => false

/-- `args || {}` is always truthy (it is an object whenever `args` is
falsy). -/
theorem jsTruthy_callBody (args : Option Json) : jsTruthy (callBody args) = true := by
  cases args with
  | none => simp [callBody, jsTruthy]
  | some a =>
      cases h : jsTruthy a with
      | true => simp [callBody, h]
      | false =>
          have hb : callBody (some a) = Json.obj [] := by simp [callBody, h]
          rw [hb]
          rfl

/-- With credentials present, `apiRequest` issues exactly one request:
method as given, URL `API_BASE_URL ++ endpoint`, the constructed header
list, and the compact JSON body (written because the body is truthy). -/
theorem apiRequest_fst (env : Env) (method endpoint : String) (bodyJson : Json)
    (reply : NetReply) (c : Credentials)
    (hcred : getGarminCredentials env = Except.ok c)
    (htruthy : jsTruthy bodyJson = true) :
    (apiRequest env method endpoint (some bodyJson) reply).1 =
      some (HttpsRequest.mk method (apiBaseUrl env ++ endpoint)
        (requestHeaders env c) (some (stringifyCompact bodyJson))) := by
  cases reply with
  | netError m => simp [apiRequest, hcred, htruthy]
  | response status data =>
      simp only [apiRequest, hcred, htruthy, if_true]
      cases hp : parseJson data with
      | none => simp [hp]
      | some parsed =>
          simp only [hp]
          by_cases hs : (200 ≤ status && status < 300) = true <;> simp [hs]

/-- For a known tool the handler's outbound request is whatever
`apiRequest` issued, on both the success and the error branch. -/
theorem handleCallTool_fst (env : Env) (name endpoint : String)
    (args : Option Json) (reply : NetReply)
    (hknown : lookupEndpoint name = some endpoint) :
    (handleCallTool env name args reply).1 =
      (apiRequest env "POST" endpoint (some (callBody args)) reply).1 := by
  simp only [handleCallTool, jsObjectGet_own name endpoint hknown]
  cases h2 : (apiRequest env "POST" endpoint (some (callBody args)) reply).2 <;>
    simp [h2]

/-- C7: every endpoint path has the shape `/api/{category}/{tool_name}`
with the tool name as final segment, and every outbound request is a POST
(over the `https` module) to `API_BASE_URL ++ path` carrying the
`Content-Type`/`X-Garmin-Email`/`X-Garmin-Password` headers, `X-API-Key`
exactly when `API_KEY` is set non-empty, and the JSON-serialized tool
arguments as body. -/
theorem claim7_request_wire_contract (env : Env) (name endpoint : String)
    (args : Option Json) (c : Credentials) (reply : NetReply)
    (hknown : lookupEndpoint name = some endpoint)
    (hcred : getGarminCredentials env = Except.ok c) :
    toolEndpointMap.all (fun p => endpointShaped p.1 p.2) = true ∧
    (handleCallTool env name args reply).1 =
      some (HttpsRequest.mk "POST" (apiBaseUrl env ++ endpoint)
        (requestHeaders env c) (some (stringifyCompact (callBody args)))) ∧
    ("Content-Type", "application/json") ∈ requestHeaders env c ∧
    ("X-Garmin-Email", c.email) ∈ requestHeaders env c ∧
    ("X-Garmin-Password", c.password) ∈ requestHeaders env c ∧
    (("X-API-Key", apiKeyValue env) ∈ requestHeaders env c ↔ apiKeyValue env ≠ "") := by
  refine ⟨by decide, ?_, ?_, ?_, ?_, ?_⟩
  · rw [handleCallTool_fst env name endpoint args reply hknown]
    exact apiRequest_fst env "POST" endpoint (callBody args) reply c hcred
      (jsTruthy_callBody args)
  · simp [requestHeaders]
  · simp [requestHeaders]
  · simp [requestHeaders]
  · by_cases h : apiKeyValue env = "" <;> simp [requestHeaders, h]

theorem claim7_request_wire_contract_witness :
    lookupEndpoint "get_hrv_data" = some "/api/health/get_hrv_data" ∧
    getGarminCredentials envFull = Except.ok ⟨"user@example.com", "hunter2"⟩ ∧
    (toolEndpointMap.all (fun p => endpointShaped p.1 p.2) = true ∧
    (handleCallTool envFull "get_hrv_data" (some (Json.obj [("date", Json.str "2026-01-01")]))
        (NetReply.response 200 "\x7b\x7d")).1 =
      some (HttpsRequest.mk "POST"
        (apiBaseUrl envFull ++ "/api/health/get_hrv_data")
        (requestHeaders envFull ⟨"user@example.com", "hunter2"⟩)
        (some (stringifyCompact
          (callBody (some (Json.obj [("date", Json.str "2026-01-01")])))))) ∧
    ("Content-Type", "application/json") ∈
      requestHeaders envFull ⟨"user@example.com", "hunter2"⟩ ∧
    ("X-Garmin-Email", "user@example.com") ∈
      requestHeaders envFull ⟨"user@example.com", "hunter2"⟩ ∧
    ("X-Garmin-Password", "hunter2") ∈
      requestHeaders envFull ⟨"user@example.com", "hunter2"⟩ ∧
    (("X-API-Key", apiKeyValue envFull) ∈
        requestHeaders envFull ⟨"user@example.com", "hunter2"⟩ ↔
      apiKeyValue envFull ≠ "")) :=
  ⟨by decide, by rfl,
   claim7_request_wire_contract envFull "get_hrv_data" "/api/health/get_hrv_data"
     (some (Json.obj [("date", Json.str "2026-01-01")]))
     ⟨"user@example.com", "hunter2"⟩ (NetReply.response 200 "\x7b\x7d")
     (by decide) (by rfl)⟩

/-- `Forall₂` between a mapped list and the original, given the relation
holds at each point. -/
theorem forall2_map_self {α β : Type} (f : α → β) (R : β → α → Prop)
    (h : ∀ a, R (f a) a) : ∀ l : List α, List.Forall₂ R (l.map f) l
  | [] => List.Forall₂.nil
  | a :: l => List.Forall₂.cons (h a) (forall2_map_self f R h l)

/-- C8: the list-tools handler is a total function of no inputs returning
25 entries, pairwise-distinct names, and entry for entry exactly the
`name`/`description`/`inputSchema` fields of the catalog, in catalog
order. -/
theorem claim8_list_tools_returns_catalog :
    handleListTools.length = 25 ∧
    (handleListTools.map ListedTool.name).Nodup ∧
    List.Forall₂
      (fun lt tool => lt.name = tool.name ∧ lt.description = tool.description ∧
        lt.inputSchema = tool.inputSchema)
      handleListTools tools := by
  refine ⟨by decide, by decide, ?_⟩
  exact forall2_map_self _ _ (fun tool => ⟨rfl, rfl, rfl⟩) tools

/-- C9: a known-tool invocation without an arguments object (absent or
`null`) sends the empty JSON object `{}` as request body, and one with an
object argument sends that object's JSON serialization — so every outbound
request carries a JSON object body. -/
theorem claim9_default_body_empty_object (env : Env) (name endpoint : String)
    (c : Credentials) (reply : NetReply)
    (hknown : lookupEndpoint name = some endpoint)
    (hcred : getGarminCredentials env = Except.ok c) :
    (∀ args : Option Json, args = none ∨ args = some Json.null →
      (handleCallTool env name args reply).1 =
        some (HttpsRequest.mk "POST" (apiBaseUrl env ++ endpoint)
          (requestHeaders env c) (some "\x7b\x7d"))) ∧
    (∀ members : List (String × Json),
      (handleCallTool env name (some (Json.obj members)) reply).1 =
        some (HttpsRequest.mk "POST" (apiBaseUrl env ++ endpoint)
          (requestHeaders env c)
          (some (stringifyCompact (Json.obj members))))) := by
  constructor
  · rintro args (rfl | rfl) <;>
    · rw [handleCallTool_fst env name endpoint _ reply hknown]
      rw [apiRequest_fst env "POST" endpoint _ reply c hcred (jsTruthy_callBody _)]
      rfl
  · intro members
    rw [handleCallTool_fst env name endpoint _ reply hknown]
    rw [apiRequest_fst env "POST" endpoint _ reply c hcred (jsTruthy_callBody _)]
    rfl

theorem claim9_default_body_empty_object_witness :
    lookupEndpoint "get_workouts" = some "/api/workout/get_workouts" ∧
    getGarminCredentials envFull = Except.ok ⟨"user@example.com", "hunter2"⟩ ∧
    ((∀ args : Option Json, args = none ∨ args = some Json.null →
      (handleCallTool envFull "get_workouts" args (NetReply.response 200 "\x7b\x7d")).1 =
        some (HttpsRequest.mk "POST"
          (apiBaseUrl envFull ++ "/api/workout/get_workouts")
          (requestHeaders envFull ⟨"user@example.com", "hunter2"⟩) (some "\x7b\x7d"))) ∧
    (∀ members : List (String × Json),
      (handleCallTool envFull "get_workouts" (some (Json.obj members))
          (NetReply.response 200 "\x7b\x7d")).1 =
        some (HttpsRequest.mk "POST"
          (apiBaseUrl envFull ++ "/api/workout/get_workouts")
          (requestHeaders envFull ⟨"user@example.com", "hunter2"⟩)
          (some (stringifyCompact (Json.obj members)))))) :=
  ⟨by decide, by rfl,
   claim9_default_body_empty_object envFull "get_workouts"
     "/api/workout/get_workouts" ⟨"user@example.com", "hunter2"⟩
     (NetReply.response 200 "\x7b\x7d") (by decide) (by rfl)⟩

/-- C10: every returned call-tool result has exactly one content element,
of type `text`, whose text is a 2-space-indented JSON serialization; the
`isError` flag is absent on the success branch and `true` exactly when the
`apiRequest` promise rejected. -/
theorem claim10_result_shape (env : Env) (name : String) (args : Option Json)
    (reply : NetReply) (r : CallToolResult)
    (h : (handleCallTool env name args reply).2 = CallToolOutcome.returned r) :
    r.content.length = 1 ∧
    (∀ item ∈ r.content, item.type = "text" ∧
      ∃ j : Json, item.text = stringifyIndent2 j) ∧
    (r.isError = none ∨ r.isError = some true) ∧
    (∀ endpoint, lookupEndpoint name = some endpoint →
      (r.isError = none ↔
        ∃ j : Json,
          (apiRequest env "POST" endpoint (some (callBody args)) reply).2 =
            Except.ok j)) := by
  cases hg : jsObjectGet name with
  | absent => simp [handleCallTool, hg] at h
  | inherited =>
      simp only [handleCallTool, hg] at h
      injection h with h
      subst h
      refine ⟨rfl, ?_, Or.inr rfl, ?_⟩
      · intro item hitem
        simp only [errorResult, List.mem_singleton] at hitem
        subst hitem
        exact ⟨rfl,
          Json.obj [("success", Json.bool false),
            ("error", Json.str (match getGarminCredentials env with
              | Except.error e => e
              | Except.ok _ => urlErrorMessage))], rfl⟩
      · intro ep hep
        rw [lookupEndpoint_none_of_inherited name hg] at hep
        cases hep
  | ownPath endpoint =>
      simp only [handleCallTool, hg] at h
      cases h2 : (apiRequest env "POST" endpoint (some (callBody args)) reply).2 with
      | ok j =>
          rw [h2] at h
          injection h with h
          subst h
          refine ⟨rfl, ?_, Or.inl rfl, ?_⟩
          · intro item hitem
            simp only [successResult, List.mem_singleton] at hitem
            subst hitem
            exact ⟨rfl, j, rfl⟩
          · intro ep hep
            have hown := jsObjectGet_own name ep hep
            rw [hg] at hown
            injection hown with hown
            subst hown
            simp [successResult, h2]
      | error e =>
          rw [h2] at h
          injection h with h
          subst h
          refine ⟨rfl, ?_, Or.inr rfl, ?_⟩
          · intro item hitem
            simp only [errorResult, List.mem_singleton] at hitem
            subst hitem
            exact ⟨rfl, Json.obj [("success", Json.bool false), ("error", Json.str e)], rfl⟩
          · intro ep hep
            have hown := jsObjectGet_own name ep hep
            rw [hg] at hown
            injection hown with hown
            subst hown
            simp [errorResult, h2]

theorem claim10_result_shape_witness :
    (handleCallTool envFull "get_workouts" none
        (NetReply.response 200 "\x7b\"ok\":true\x7d")).2 =
      CallToolOutcome.returned (successResult (Json.obj [("ok", Json.bool true)])) ∧
    ((successResult (Json.obj [("ok", Json.bool true)])).content.length = 1 ∧
    (∀ item ∈ (successResult (Json.obj [("ok", Json.bool true)])).content,
      item.type = "text" ∧ ∃ j : Json, item.text = stringifyIndent2 j) ∧
    ((successResult (Json.obj [("ok", Json.bool true)])).isError = none ∨
      (successResult (Json.obj [("ok", Json.bool true)])).isError = some true) ∧
    (∀ endpoint, lookupEndpoint "get_workouts" = some endpoint →
      ((successResult (Json.obj [("ok", Json.bool true)])).isError = none ↔
        ∃ j : Json,
          (apiRequest envFull "POST" endpoint (some (callBody none))
              (NetReply.response 200 "\x7b\"ok\":true\x7d")).2 =
            Except.ok j))) :=
  ⟨by decide,
   claim10_result_shape envFull "get_workouts" none
     (NetReply.response 200 "\x7b\"ok\":true\x7d")
     (successResult (Json.obj [("ok", Json.bool true)])) (by decide)⟩
